import Mathlib

/-!
Shallow embedding of the KEVin charging controller (charger.py, config.py)
and proofs about its Charging Decision Engine.

Modelling conventions:
* Python floats are modelled as rationals (ℚ); Python ints as ℤ.
  The float NaN that `get_car_soc` can produce is modelled by `Option ℚ`
  (`none` = NaN), since the code only ever tests it with `math.isnan`.
* Wall-clock readings are explicit parameters: `time_of_day` is the value
  `tm_hour*3600 + tm_min*60 + tm_sec` that `time.localtime()` produces, and
  `now` is the value of `time.time()`.
* Fallible Python code is `Except PyErr _`; an uncaught exception is an
  `Except.error`.
* The module-global mutable `nightly_state` is passed in and returned
  explicitly; calls to the actuation API (`api.set_charging_plan`) are
  returned as data.
-/

/-- Python exception classes that the embedded code can raise or catch. -/
inductive PyErr where
  | valueError
  | keyError
  | typeError
  | unboundLocalError
deriving DecidableEq

deriving instance DecidableEq for Except

/-- Numeric configuration constants (config.py, class Config).  Only the
fields read by the decision logic of charger.py are modelled; the string
fields (API url/token, entity ids, templates) belong to the external
telemetry collaborator, and `max_power`, `min_plus_solar_min_power`,
`battery_reserve_hysteresis`, `nightly_amps_offset` and `log_level` are
never read by charger.py. -/
structure Config where
  min_amps : ℤ
  max_amps : ℤ
  min_power : ℚ
  volts : ℚ
  phases : ℚ
  poll_interval : ℚ
  charge_efficiency_factor : ℚ
  vehicle_battery_capacity : ℚ
  nightly_start : ℤ
  nightly_end : ℤ
  nightly_recalc_interval : ℚ
  tesla_schedule_start : ℤ
  battery_soc_no_charging : ℚ
  battery_soc_reserve : ℚ
  battery_soc_peak_shaving_minimal : ℚ
  battery_power_reserve : ℚ
  battery_power_peak_shaving_minimal : ℚ
  battery_power_peak_shaving : ℚ
deriving DecidableEq

/-- charger.py lines 13-17: class BatteryLoadStrategy (the source spells
PeakShavingMininal with this typo). -/
inductive BatteryLoadStrategy where
  | PeakShaving
  | PeakShavingMininal
  | Reserve
  | NoCharging
deriving DecidableEq

/-- charger.py lines 19-26: BatteryLoadStrategy.from_soc. -/
def BatteryLoadStrategy.from_soc (soc : ℚ) (c : Config) : BatteryLoadStrategy :=
  if soc < c.battery_soc_no_charging then BatteryLoadStrategy.NoCharging
  else if soc < c.battery_soc_reserve then BatteryLoadStrategy.Reserve
  else if soc < c.battery_soc_peak_shaving_minimal then BatteryLoadStrategy.PeakShavingMininal
  else BatteryLoadStrategy.PeakShaving

/-- charger.py lines 28-35: BatteryLoadStrategy.max_charing_power_with_grid
(source name). -/
def BatteryLoadStrategy.max_charing_power_with_grid
    (self : BatteryLoadStrategy) (c : Config) : ℚ :=
  if self = BatteryLoadStrategy.NoCharging then 0
  else if self = BatteryLoadStrategy.Reserve then c.battery_power_reserve
  else if self = BatteryLoadStrategy.PeakShavingMininal then c.battery_power_peak_shaving_minimal
  else c.battery_power_peak_shaving

/-- charger.py lines 37-42: class ChargingPowerSource (NoCharing is the
source's spelling). -/
inductive ChargingPowerSource where
  | NoCharing
  | SolarOnly
  | MinPlusSolar
  | MinBatteryLoad
  | Full
deriving DecidableEq

/-- charger.py lines 44-59: ChargingPowerSource.get_max_power.  The Python
enum is closed, so the if-chain over `self` is a total match here. -/
def ChargingPowerSource.get_max_power (self : ChargingPowerSource) (c : Config)
    (pv_power total_load battery_load : ℚ)
    (battery_strategy : BatteryLoadStrategy) : ℚ :=
  if battery_strategy.max_charing_power_with_grid c <
      c.min_power * c.charge_efficiency_factor then 0
  else
    match self with
    | ChargingPowerSource.NoCharing => 0
    | ChargingPowerSource.SolarOnly => max 0 (pv_power - total_load)
    | ChargingPowerSource.MinPlusSolar =>
        max (c.min_power * c.charge_efficiency_factor) (pv_power - total_load)
    | ChargingPowerSource.MinBatteryLoad =>
        let battery_strategy2 :=
          if battery_strategy = BatteryLoadStrategy.PeakShaving
          then BatteryLoadStrategy.PeakShavingMininal else battery_strategy
        max 0 (pv_power - total_load - battery_load +
          battery_strategy2.max_charing_power_with_grid c)
    | ChargingPowerSource.Full =>
        max 0 (pv_power - total_load + battery_strategy.max_charing_power_with_grid c)

/-- charger.py lines 61-79: get_nightly_time.  The local variable `time_end`
is assigned only under `if c.nightly_end < c.nightly_start`; on the branch
where that test fails, the final `time_end - time_now` raises
UnboundLocalError, which the embedding surfaces as an error value. -/
def get_nightly_time (c : Config) (time_of_day : ℤ) : Except PyErr (Bool × ℤ) :=
  let time_now := time_of_day
  if time_now > c.nightly_end ∧ time_now < c.nightly_start then Except.ok (false, 0)
  else
    let time_now2 := if time_now < c.nightly_start then time_now + 24 * 3600 else time_now
    if c.nightly_end < c.nightly_start then
      let time_end := c.nightly_end + 24 * 3600
      Except.ok (true, time_end - time_now2)
    else Except.error PyErr.unboundLocalError

/-- charger.py lines 81-103: is_scheduled_charging_time. -/
def is_scheduled_charging_time (c : Config) (time_of_day : ℤ) : Bool :=
  let time_now := time_of_day
  let time_start := c.tesla_schedule_start
  let time_end := time_start + 6 * 3600
  if time_end > 24 * 3600 then
    decide (time_start ≤ time_now ∨ time_now ≤ time_end % (24 * 3600))
  else
    decide (time_start ≤ time_now ∧ time_now ≤ time_end)

/-- charger.py lines 105-112: class ChargingPlan, in definition order (the
order `for p in ChargingPlan` iterates in). -/
inductive ChargingPlan where
  | Manual
  | SolarOnly
  | MinPlusSolar
  | Nightly
  | SolarPlusNightly
  | MinBatteryLoad
  | MaxSpeed
deriving DecidableEq

/-- The `value` string of each ChargingPlan member (charger.py lines 106-112). -/
def ChargingPlan.value : ChargingPlan → String
  | ChargingPlan.Manual => "Manual"
  | ChargingPlan.SolarOnly => "Solar only"
  | ChargingPlan.MinPlusSolar => "Min + Solar"
  | ChargingPlan.Nightly => "Nightly"
  | ChargingPlan.SolarPlusNightly => "Solar + Nightly"
  | ChargingPlan.MinBatteryLoad => "Min battery load"
  | ChargingPlan.MaxSpeed => "Max speed"

/-- Python enum lookup by value, `ChargingPlan(s)`: returns the member whose
value is `s`, and raises ValueError when no member matches. -/
def chargingPlanOfValue (s : String) : Except PyErr ChargingPlan :=
  if s = "Manual" then Except.ok ChargingPlan.Manual
  else if s = "Solar only" then Except.ok ChargingPlan.SolarOnly
  else if s = "Min + Solar" then Except.ok ChargingPlan.MinPlusSolar
  else if s = "Nightly" then Except.ok ChargingPlan.Nightly
  else if s = "Solar + Nightly" then Except.ok ChargingPlan.SolarPlusNightly
  else if s = "Min battery load" then Except.ok ChargingPlan.MinBatteryLoad
  else if s = "Max speed" then Except.ok ChargingPlan.MaxSpeed
  else Except.error PyErr.valueError

/-- charger.py lines 225-233: WigaunApi.get_charging_plan, with `s` the
string the charging-plan template returned.  The try block evaluates
`ChargingPlan(s)`; the handler catches only KeyError. -/
def get_charging_plan (s : String) : Except PyErr ChargingPlan :=
  match chargingPlanOfValue s with
  | Except.ok p => Except.ok p
  | Except.error e =>
      if e = PyErr.keyError then Except.ok ChargingPlan.Manual
      else Except.error e

/-- charger.py lines 114-130: ChargingPlan.get_power_source.  For
SolarPlusNightly the source calls `get_nightly_time(c)` (through the
module-global `c`), so the night-window error propagates. -/
def ChargingPlan.get_power_source (self : ChargingPlan) (c : Config)
    (time_of_day : ℤ) : Except PyErr ChargingPowerSource :=
  match self with
  | ChargingPlan.Manual => Except.ok ChargingPowerSource.Full
  | ChargingPlan.SolarOnly => Except.ok ChargingPowerSource.SolarOnly
  | ChargingPlan.MinPlusSolar => Except.ok ChargingPowerSource.MinPlusSolar
  | ChargingPlan.Nightly => Except.ok ChargingPowerSource.Full
  | ChargingPlan.SolarPlusNightly =>
      match get_nightly_time c time_of_day with
      | Except.error e => Except.error e
      | Except.ok p =>
          Except.ok (if p.1 then ChargingPowerSource.Full else ChargingPowerSource.SolarOnly)
  | ChargingPlan.MinBatteryLoad => Except.ok ChargingPowerSource.MinBatteryLoad
  | ChargingPlan.MaxSpeed => Except.ok ChargingPowerSource.Full

/-- charger.py lines 277-291: class NightlyChargingState.  The Python field
`cached_amps` is declared Optional[float], but its only writer
(`update(amps_plan)` at line 369) stores the integer `amps_plan`, so the
cache is modelled as an optional integer. -/
structure NightlyChargingState where
  last_calc_time : ℚ
  cached_amps : Option ℤ
deriving DecidableEq

/-- charger.py lines 282-283: should_recalculate, with `now` standing for
`time.time()`. -/
def NightlyChargingState.should_recalculate (st : NightlyChargingState)
    (recalc_interval : ℚ) (now : ℚ) : Bool :=
  decide (now - st.last_calc_time > recalc_interval)

/-- charger.py lines 285-287: update, with `now` standing for `time.time()`. -/
def NightlyChargingState.update (now : ℚ) (amps : ℤ) : NightlyChargingState :=
  ⟨now, some amps⟩

/-- charger.py lines 289-291: reset (also the state `__init__` builds). -/
def NightlyChargingState.reset : NightlyChargingState :=
  ⟨0, none⟩

/-- charger.py lines 354-357: the required amps computed by the nightly
recalculation. -/
def nightly_required_amps (c : Config) (soc limit_soc : ℚ)
    (remaining_time_s : ℤ) : ℚ :=
  let remaining_capacity_wh := c.vehicle_battery_capacity * (limit_soc - soc) / 100
  let remaining_time_h := (remaining_time_s : ℚ) / 3600
  remaining_capacity_wh / (remaining_time_h * c.volts * c.phases)

/-- charger.py lines 359-367: the nightly recalculation result:
ceil of the required amps, clamped below by min_amps and above by the
budget-derived max_amps of this cycle. -/
def nightly_plan_amps (c : Config) (max_amps : ℤ) (soc limit_soc : ℚ)
    (remaining_time_s : ℤ) : ℤ :=
  let amps_plan0 := Int.ceil (nightly_required_amps c soc limit_soc remaining_time_s)
  let amps_plan1 := if amps_plan0 < c.min_amps then c.min_amps else amps_plan0
  if amps_plan1 > max_amps then max_amps else amps_plan1

/-- Result of one call to calculate_charging_amps: the returned amps, the
nightly state after the call (the Python code mutates the module-global
nightly_state), and the plan passed to the api.set_charging_plan side
effect when the call performs one. -/
structure CalcResult where
  amps : ℤ
  state : NightlyChargingState
  plan_switch : Option ChargingPlan
deriving DecidableEq

/-- charger.py lines 295-380: calculate_charging_amps.  `max_power` is the
power budget for the plan's power source; `time_of_day` and `now` are the
clock readings of this call; `st` is the module-global nightly_state on
entry. -/
def calculate_charging_amps (c : Config) (plan : ChargingPlan) (max_power : ℚ)
    (current_soc : Option ℚ) (limit_soc : ℚ) (time_of_day : ℤ) (now : ℚ)
    (st : NightlyChargingState) : Except PyErr CalcResult :=
  match current_soc with
  | none => Except.ok ⟨0, st, none⟩
  | some soc =>
    if soc ≥ limit_soc then Except.ok ⟨0, st, none⟩
    else if max_power < c.min_power * c.charge_efficiency_factor then Except.ok ⟨0, st, none⟩
    else
      let step := c.phases * c.volts * c.charge_efficiency_factor
      let max_amps := Int.floor (max_power / step)
      if max_amps < c.min_amps then Except.ok ⟨0, st, none⟩
      else
        match (if plan = ChargingPlan.SolarPlusNightly ∨ plan = ChargingPlan.Nightly
               then get_nightly_time c time_of_day else Except.ok (false, 0)) with
        | Except.error e => Except.error e
        | Except.ok (is_night, remaining_time_s) =>
          let plan2 :=
            if plan = ChargingPlan.SolarPlusNightly then
              (if is_night then ChargingPlan.Nightly else ChargingPlan.SolarOnly)
            else plan
          if plan2 = ChargingPlan.Nightly then
            if is_night = false then
              Except.ok ⟨0, NightlyChargingState.reset, none⟩
            else if (remaining_time_s : ℚ) < 6/5 * c.poll_interval then
              Except.ok ⟨max_amps, NightlyChargingState.reset, some ChargingPlan.MaxSpeed⟩
            else
              match st.cached_amps, st.should_recalculate c.nightly_recalc_interval now with
              | some target_amps, false =>
                  if target_amps > max_amps then Except.ok ⟨max_amps, st, none⟩
                  else Except.ok ⟨target_amps, st, none⟩
              | _, _ =>
                  let amps_plan := nightly_plan_amps c max_amps soc limit_soc remaining_time_s
                  Except.ok ⟨amps_plan, NightlyChargingState.update now amps_plan, none⟩
          else
            if plan2 = ChargingPlan.Manual ∨ plan2 = ChargingPlan.SolarOnly ∨
               plan2 = ChargingPlan.MinPlusSolar ∨ plan2 = ChargingPlan.MinBatteryLoad ∨
               plan2 = ChargingPlan.MaxSpeed then
              Except.ok ⟨min max_amps c.max_amps, NightlyChargingState.reset, none⟩
            else
              Except.ok ⟨0, NightlyChargingState.reset, none⟩

/-- charger.py lines 382-387: class UnexpectedChangeResult. -/
inductive UnexpectedChangeResult where
  | Expected
  | Disconnected
  | Scheduled
  | Ignored
  | Manual
deriving DecidableEq

/-- charger.py lines 389-423: handle_unexpected_charging_change.
`charger_connected_after_wait` is the fresh `api.get_charger_connected()`
read performed after the one-poll-interval sleep; `time_of_day` feeds the
`is_scheduled_charging_time` check. -/
def handle_unexpected_charging_change (c : Config) (charging : Bool)
    (charging_amps : ℤ) (remembered_charging_enabled : Bool)
    (remembered_charging_amps : ℤ) (charger_connected_after_wait : Bool)
    (time_of_day : ℤ) : UnexpectedChangeResult :=
  if remembered_charging_enabled = charging ∧ remembered_charging_amps = charging_amps then
    UnexpectedChangeResult.Expected
  else
    let charging_changed := remembered_charging_enabled ≠ charging
    let charging_amps_changed := remembered_charging_amps ≠ charging_amps
    if charging_changed ∧ charging = false ∧ charger_connected_after_wait = false then
      UnexpectedChangeResult.Disconnected
    else if charging_changed ∧ charging = true ∧
        is_scheduled_charging_time c time_of_day = true then
      UnexpectedChangeResult.Scheduled
    else if charging_amps_changed ∧ charging = false then
      UnexpectedChangeResult.Ignored
    else
      UnexpectedChangeResult.Manual

/-- Number of parameters of the def of handle_unexpected_charging_change
(charger.py lines 389-390): c, charging, charging_amps,
remembered_charging_enabled, remembered_charging_amps. -/
def handle_unexpected_charging_change_param_count : ℕ := 5

/-- Number of positional arguments at the call site inside main
(charger.py lines 547-548): c, api, charging, charging_amps,
remembered_charging_enabled, remembered_charging_amps. -/
def main_unexpected_change_call_arg_count : ℕ := 6

/-- Python positional-call rule: calling a plain function with a number of
positional arguments different from its parameter count raises TypeError. -/
def pyCallCheck (param_count arg_count : ℕ) : Except PyErr Unit :=
  if arg_count = param_count then Except.ok () else Except.error PyErr.typeError

/-- The call main performs at charger.py lines 547-548, as executed by the
Python calling convention: the arity check precedes any execution of the
callee body, so the body only runs when the counts agree. -/
def main_unexpected_change_call (c : Config) (charging : Bool) (charging_amps : ℤ)
    (remembered_charging_enabled : Bool) (remembered_charging_amps : ℤ)
    (charger_connected_after_wait : Bool) (time_of_day : ℤ) :
    Except PyErr UnexpectedChangeResult :=
  match pyCallCheck handle_unexpected_charging_change_param_count
      main_unexpected_change_call_arg_count with
  | Except.error e => Except.error e
  | Except.ok _ =>
      Except.ok (handle_unexpected_charging_change c charging charging_amps
        remembered_charging_enabled remembered_charging_amps
        charger_connected_after_wait time_of_day)

/-- Telemetry snapshot fields of one cycle of main that the per-plan
observability loop (charger.py lines 480-487) reads, plus the clock
readings of the cycle.  The loop performs no sleeps, so the whole cycle is
modelled at a single clock instant. -/
structure CycleInputs where
  pv_power : ℚ
  total_load : ℚ
  battery_load : ℚ
  inverter_soc : ℚ
  car_soc : Option ℚ
  charging_limit : ℚ
  time_of_day : ℤ
  now : ℚ
deriving DecidableEq

/-- The list `[p for p in ChargingPlan]` of charger.py line 482: all plans
in enum definition order. -/
def plan_list : List ChargingPlan :=
  [ChargingPlan.Manual, ChargingPlan.SolarOnly, ChargingPlan.MinPlusSolar,
   ChargingPlan.Nightly, ChargingPlan.SolarPlusNightly,
   ChargingPlan.MinBatteryLoad, ChargingPlan.MaxSpeed]

/-- charger.py line 476: the power budget main computes for a power source
from the cycle's snapshot. -/
def cycle_budget (c : Config) (inp : CycleInputs) (ps : ChargingPowerSource) : ℚ :=
  ps.get_max_power c inp.pv_power inp.total_load inp.battery_load
    (BatteryLoadStrategy.from_soc inp.inverter_soc c)

/-- charger.py line 483: one iteration of the per-plan loop, looking up the
plan's power source in the budget table and calling calculate_charging_amps
against the shared nightly state. -/
def plan_step (c : Config) (inp : CycleInputs) (plan : ChargingPlan)
    (st : NightlyChargingState) : Except PyErr CalcResult :=
  match plan.get_power_source c inp.time_of_day with
  | Except.error e => Except.error e
  | Except.ok ps =>
      calculate_charging_amps c plan (cycle_budget c inp ps) inp.car_soc
        inp.charging_limit inp.time_of_day inp.now st

/-- The per-plan loop of charger.py lines 481-487, threading the shared
nightly state through the iterations in enum order and collecting the
per-plan amps and the set_charging_plan side effects in call order. -/
def per_plan_go (c : Config) (inp : CycleInputs) :
    List ChargingPlan → NightlyChargingState → List (ChargingPlan × ℤ) →
    List ChargingPlan →
    Except PyErr (List (ChargingPlan × ℤ) × NightlyChargingState × List ChargingPlan)
  | [], st, acc, effs => Except.ok (acc.reverse, st, effs.reverse)
  | plan :: rest, st, acc, effs =>
    match plan_step c inp plan st with
    | Except.error e => Except.error e
    | Except.ok r =>
        per_plan_go c inp rest r.state ((plan, r.amps) :: acc)
          (match r.plan_switch with
           | some p2 => p2 :: effs
           | none => effs)

/-- The whole per-plan observability loop of one cycle of main. -/
def per_plan_loop (c : Config) (inp : CycleInputs) (st0 : NightlyChargingState) :
    Except PyErr (List (ChargingPlan × ℤ) × NightlyChargingState × List ChargingPlan) :=
  per_plan_go c inp plan_list st0 [] []

/-- How one execution of main inside the top-level loop can end. -/
inductive MainOutcome where
  | returns
  | raisesKeyboardInterrupt
  | raisesException
deriving DecidableEq

/-- What an iteration of the `while True` orchestrator loop does to the
loop afterwards. -/
inductive LoopControl where
  | breaks
  | continues
deriving DecidableEq

/-- Observable outcome of one iteration of the top-level loop of charger.py
lines 630-647: whether the crash notification of the except-Exception
clause was sent, and whether the loop then continues with another call of
main or terminates. -/
structure IterationResult where
  notified_crash : Bool
  control : LoopControl
deriving DecidableEq

/-- The try/except clauses of charger.py lines 631-642, before the finally
clause runs: a normal return falls through to the next loop iteration,
KeyboardInterrupt breaks, and any other exception logs, sleeps, sends the
crash notification and issues `continue`. -/
def try_except_clauses : MainOutcome → IterationResult
  | MainOutcome.returns => ⟨false, LoopControl.continues⟩
  | MainOutcome.raisesKeyboardInterrupt => ⟨false, LoopControl.breaks⟩
  | MainOutcome.raisesException => ⟨true, LoopControl.continues⟩

/-- The finally clause of charger.py lines 643-647 closes the metrics
connection and the HTTP client and then executes `break`; by Python
semantics a break inside a finally clause discards whatever break or
continue was pending from the try/except suites. -/
def finally_clause (r : IterationResult) : IterationResult :=
  ⟨r.notified_crash, LoopControl.breaks⟩

/-- One full iteration of the top-level orchestrator loop. -/
def orchestratorIteration (o : MainOutcome) : IterationResult :=
  finally_clause (try_except_clauses o)

/-- A concrete configuration used for witnesses and counterexamples:
6-16 A, 230 V, 1 phase, efficiency 1, min_power 1380 W, 30 s poll,
50 kWh vehicle battery, night window 22:00-06:00, 300 s nightly recalc,
schedule start 01:00, battery thresholds 10/20/40 % with ceilings
1000/2000/5000 W. -/
def cfgT : Config :=
  ⟨6, 16, 1380, 230, 1, 30, 1, 50000, 79200, 21600, 300, 3600, 10, 20, 40,
   1000, 2000, 5000⟩

/-- A configuration whose nightly window does not wrap midnight:
start 06:00 (21600 s), end 22:00 (79200 s); all other fields as cfgT. -/
def cfgNonWrap : Config :=
  ⟨6, 16, 1380, 230, 1, 30, 1, 50000, 21600, 79200, 300, 3600, 10, 20, 40,
   1000, 2000, 5000⟩

/-- Cycle snapshot used in the concrete part of the per-plan-loop claim:
plenty of solar, small loads, inverter at 50 %, car at 50 % with limit
80 %, read at 05:59:50 (10 s before the nightly window ends). -/
def inpT : CycleInputs :=
  ⟨8000, 500, 100, 50, some 50, 80, 21590, 5000⟩

/-- Rank of a battery strategy against the ordering
NoCharging < Reserve < PeakShavingMinimal < PeakShaving used by the
monotonicity property of the Battery Strategy Classifier. -/
def strategyRank : BatteryLoadStrategy → ℕ
  | BatteryLoadStrategy.NoCharging => 0
  | BatteryLoadStrategy.Reserve => 1
  | BatteryLoadStrategy.PeakShavingMininal => 2
  | BatteryLoadStrategy.PeakShaving => 3

/-- C1: after an unhandled exception escapes one execution of main, the
top-level loop of charger.py lines 630-647 does send the crash
notification, but the break inside the finally clause discards the
pending continue of the except clause, so the loop terminates instead of
restarting main; in fact every outcome of main (normal return,
KeyboardInterrupt, unhandled exception) terminates the loop after a single
execution of main. -/
theorem c1_orchestrator_loop_terminates :
    orchestratorIteration MainOutcome.raisesException =
      ⟨true, LoopControl.breaks⟩ ∧
    ∀ o : MainOutcome, (orchestratorIteration o).control = LoopControl.breaks := by
  refine ⟨rfl, ?_⟩
  intro o
  cases o <;> rfl

/-- C2: the call of handle_unexpected_charging_change inside main
(charger.py lines 547-548) passes six positional arguments to a
five-parameter function, so by the Python calling convention it raises
TypeError instead of returning an UnexpectedChangeResult, for every cycle
state that reaches the call. -/
theorem c2_unexpected_change_call_arity :
    (∀ (c : Config) (charging : Bool) (charging_amps : ℤ)
       (remembered_charging_enabled : Bool) (remembered_charging_amps : ℤ)
       (charger_connected_after_wait : Bool) (time_of_day : ℤ),
       main_unexpected_change_call c charging charging_amps
         remembered_charging_enabled remembered_charging_amps
         charger_connected_after_wait time_of_day =
         Except.error PyErr.typeError) ∧
    pyCallCheck handle_unexpected_charging_change_param_count
      main_unexpected_change_call_arg_count = Except.error PyErr.typeError := by
  refine ⟨?_, rfl⟩
  intros
  rfl

/-- C4: get_nightly_time is not total over all configured start/end times:
with the non-wrapping window start=06:00 (21600 s), end=22:00 (79200 s) it
raises UnboundLocalError at every time of day (time_end is assigned only
when nightly_end < nightly_start), here evaluated at 12:00; the two
wrapping-window examples of the claim do hold: with start=22:00 (79200 s),
end=06:00 (21600 s), 23:00 is night with 25200 s (7 h) remaining and 12:00
is not night. -/
theorem c4_get_nightly_time_totality :
    get_nightly_time cfgNonWrap 43200 = Except.error PyErr.unboundLocalError ∧
    get_nightly_time cfgT 82800 = Except.ok (true, 25200) ∧
    get_nightly_time cfgT 43200 = Except.ok (false, 0) := by
  refine ⟨?_, ?_, ?_⟩ <;> decide

/-- C5: an unknown charging-plan string does not degrade to Manual: the
Python enum lookup ChargingPlan(s) raises ValueError, while the handler in
WigaunApi.get_charging_plan catches only KeyError, so the ValueError
propagates out of get_charging_plan instead of any ChargingPlan being
returned. -/
theorem c5_unknown_plan_raises :
    get_charging_plan "Bogus" = Except.error PyErr.valueError ∧
    ∀ p : ChargingPlan, get_charging_plan "Bogus" ≠ Except.ok p := by
  refine ⟨by decide, ?_⟩
  intro p
  cases p <;> decide

/-- C6 counterexample: with remembered=(true,16), observed=(false,16) and
the post-wait fresh connectivity read reporting the charger STILL
CONNECTED, handle_unexpected_charging_change returns Manual, not
Disconnected as the claim states. -/
theorem c6_mode_classifier_cex :
    handle_unexpected_charging_change cfgT false 16 true 16 true 43200 ≠
      UnexpectedChangeResult.Disconnected ∧
    handle_unexpected_charging_change cfgT false 16 true 16 true 43200 =
      UnexpectedChangeResult.Manual := by
  refine ⟨by decide, by decide⟩

/-- C6 (amended): with remembered=(true,a), observed=(false,a), the
classifier returns Disconnected exactly when the post-wait fresh
connectivity read reports the charger DISCONNECTED; when the read reports
it still connected the classifier falls through to Manual. -/
theorem c6_mode_classifier_disconnected :
    ∀ (c : Config) (amps : ℤ) (time_of_day : ℤ),
      handle_unexpected_charging_change c false amps true amps false time_of_day =
        UnexpectedChangeResult.Disconnected ∧
      handle_unexpected_charging_change c false amps true amps true time_of_day =
        UnexpectedChangeResult.Manual := by
  intro c amps time_of_day
  constructor <;> simp [handle_unexpected_charging_change]

/-- C8: whenever the active strategy's grid ceiling passes the headroom
guard, the MinBatteryLoad budget is max(0, PV − total_load − battery_load
+ ceiling), with the ceiling taken from PeakShavingMinimal whenever the
active strategy is PeakShaving and from the active strategy itself
otherwise. -/
theorem c8_min_battery_load_budget (c : Config) (pv_power total_load battery_load : ℚ)
    (battery_strategy : BatteryLoadStrategy)
    (h : ¬ battery_strategy.max_charing_power_with_grid c <
      c.min_power * c.charge_efficiency_factor) :
    ChargingPowerSource.MinBatteryLoad.get_max_power c pv_power total_load
      battery_load battery_strategy =
      max 0 (pv_power - total_load - battery_load +
        (if battery_strategy = BatteryLoadStrategy.PeakShaving
         then BatteryLoadStrategy.PeakShavingMininal.max_charing_power_with_grid c
         else battery_strategy.max_charing_power_with_grid c)) := by
  rw [ChargingPowerSource.get_max_power, if_neg h]
  cases battery_strategy <;> simp

/-- C8 witness: with cfgT and the PeakShaving strategy (ceiling 5000 W,
which passes the 1380 W headroom guard), PV 8000 W, total load 500 W and
battery load 100 W, the theorem applies and the budget uses the
PeakShavingMinimal ceiling of 2000 W. -/
theorem c8_min_battery_load_budget_witness :
    (¬ BatteryLoadStrategy.PeakShaving.max_charing_power_with_grid cfgT <
      cfgT.min_power * cfgT.charge_efficiency_factor) ∧
    ChargingPowerSource.MinBatteryLoad.get_max_power cfgT 8000 500 100
      BatteryLoadStrategy.PeakShaving =
      max 0 (8000 - 500 - 100 +
        (if BatteryLoadStrategy.PeakShaving = BatteryLoadStrategy.PeakShaving
         then BatteryLoadStrategy.PeakShavingMininal.max_charing_power_with_grid cfgT
         else BatteryLoadStrategy.PeakShaving.max_charing_power_with_grid cfgT)) :=
  ⟨by
    rw [show BatteryLoadStrategy.PeakShaving.max_charing_power_with_grid cfgT = 5000
      from rfl]
    norm_num [cfgT],
   c8_min_battery_load_budget cfgT 8000 500 100 BatteryLoadStrategy.PeakShaving
     (by
       rw [show BatteryLoadStrategy.PeakShaving.max_charing_power_with_grid cfgT = 5000
         from rfl]
       norm_num [cfgT])⟩

/-- C9: with ascending thresholds the Battery Strategy Classifier realizes
the first-match-wins chain (each of the four outputs is returned exactly on
its band of SOC values) and is monotonically non-decreasing in SOC against
the ordering NoCharging < Reserve < PeakShavingMinimal < PeakShaving. -/
theorem c9_strategy_classifier (c : Config)
    (h1 : c.battery_soc_no_charging ≤ c.battery_soc_reserve)
    (h2 : c.battery_soc_reserve ≤ c.battery_soc_peak_shaving_minimal) :
    (∀ soc : ℚ,
      (BatteryLoadStrategy.from_soc soc c = BatteryLoadStrategy.NoCharging ↔
        soc < c.battery_soc_no_charging) ∧
      (BatteryLoadStrategy.from_soc soc c = BatteryLoadStrategy.Reserve ↔
        (¬ soc < c.battery_soc_no_charging ∧ soc < c.battery_soc_reserve)) ∧
      (BatteryLoadStrategy.from_soc soc c = BatteryLoadStrategy.PeakShavingMininal ↔
        (¬ soc < c.battery_soc_no_charging ∧ ¬ soc < c.battery_soc_reserve ∧
          soc < c.battery_soc_peak_shaving_minimal)) ∧
      (BatteryLoadStrategy.from_soc soc c = BatteryLoadStrategy.PeakShaving ↔
        (¬ soc < c.battery_soc_no_charging ∧ ¬ soc < c.battery_soc_reserve ∧
          ¬ soc < c.battery_soc_peak_shaving_minimal))) ∧
    ∀ s1 s2 : ℚ, s1 ≤ s2 →
      strategyRank (BatteryLoadStrategy.from_soc s1 c) ≤
        strategyRank (BatteryLoadStrategy.from_soc s2 c) := by
  constructor
  · intro soc
    unfold BatteryLoadStrategy.from_soc
    split_ifs with ha hb hc <;> simp_all <;> try linarith
  · intro s1 s2 hle
    unfold BatteryLoadStrategy.from_soc
    split_ifs <;> simp [strategyRank] <;> linarith

/-- C9 witness: cfgT has ascending thresholds 10 ≤ 20 ≤ 40, and the
monotonicity instance 15 ≤ 50 gives rank(from_soc 15) ≤ rank(from_soc 50). -/
theorem c9_strategy_classifier_witness :
    cfgT.battery_soc_no_charging ≤ cfgT.battery_soc_reserve ∧
    cfgT.battery_soc_reserve ≤ cfgT.battery_soc_peak_shaving_minimal ∧
    strategyRank (BatteryLoadStrategy.from_soc 15 cfgT) ≤
      strategyRank (BatteryLoadStrategy.from_soc 50 cfgT) :=
  ⟨by norm_num [cfgT], by norm_num [cfgT],
   (c9_strategy_classifier cfgT (by norm_num [cfgT]) (by norm_num [cfgT])).2
     15 50 (by norm_num)⟩

/-- Bounds of the nightly recalculation result: the two clamps of
charger.py lines 361-367 keep it between min_amps and the budget-derived
max_amps whenever min_amps ≤ max_amps. -/
theorem nightly_plan_amps_bounds (c : Config) (max_amps : ℤ) (soc limit_soc : ℚ)
    (remaining_time_s : ℤ) (h : c.min_amps ≤ max_amps) :
    c.min_amps ≤ nightly_plan_amps c max_amps soc limit_soc remaining_time_s ∧
    nightly_plan_amps c max_amps soc limit_soc remaining_time_s ≤ max_amps := by
  simp only [nightly_plan_amps]
  split_ifs <;> omega

/-- C3 counterexample: with cfgT (min_amps 6, max_amps 16, step 230 W/A,
both side conditions of the claim satisfied), the Nightly plan at 05:59:50
(10 s of night remaining, below 1.2 × poll_interval) and a 7360 W budget
returns the budget-derived 32 A, which is neither 0 nor inside
[min_amps, max_amps] = [6, 16]: the MaxSpeed-escalation return is not
clamped by the configured max_amps. -/
theorem c3_amps_bounds_cex :
    calculate_charging_amps cfgT ChargingPlan.Nightly 7360 (some 50) 80 21590 1000
      NightlyChargingState.reset =
      Except.ok ⟨32, NightlyChargingState.reset, some ChargingPlan.MaxSpeed⟩ ∧
    ¬ ((32 : ℤ) = 0 ∨ (cfgT.min_amps ≤ 32 ∧ (32 : ℤ) ≤ cfgT.max_amps)) := by
  constructor
  · norm_num [calculate_charging_amps, get_nightly_time, cfgT]
  · norm_num [cfgT]

set_option maxHeartbeats 1000000 in
/-- C3 (amended): for every plan, budget, car SOC, limit and nightly-cache
state whose cached value (if any) is at least min_amps, if
min_amps ≤ max_amps and the per-amp step is positive, then every
successful call of calculate_charging_amps returns either exactly 0 or an
integer amperage between min_amps and max(max_amps, floor(budget/step)):
the configured max_amps caps all non-Nightly plans, but the Nightly-path
returns are capped only by the budget-derived floor(budget/step), which
can exceed max_amps. -/
theorem c3_amps_bounds (c : Config) (plan : ChargingPlan) (max_power : ℚ)
    (current_soc : Option ℚ) (limit_soc : ℚ) (time_of_day : ℤ) (now : ℚ)
    (st : NightlyChargingState)
    (hminmax : c.min_amps ≤ c.max_amps)
    (hstep : 0 < c.phases * c.volts * c.charge_efficiency_factor)
    (hcache : ∀ a : ℤ, st.cached_amps = some a → c.min_amps ≤ a) :
    ∀ r : CalcResult,
      calculate_charging_amps c plan max_power current_soc limit_soc time_of_day now st =
        Except.ok r →
      r.amps = 0 ∨ (c.min_amps ≤ r.amps ∧
        r.amps ≤ max c.max_amps
          (Int.floor (max_power / (c.phases * c.volts * c.charge_efficiency_factor)))) := by
  intro r h
  rcases current_soc with _ | soc
  · simp only [calculate_charging_amps, Except.ok.injEq] at h
    subst h
    exact Or.inl rfl
  · simp only [calculate_charging_amps] at h
    set A := Int.floor (max_power / (c.phases * c.volts * c.charge_efficiency_factor))
      with hA
    repeat' split at h
    all_goals first
      | exact Except.noConfusion h
      | (simp only [Except.ok.injEq] at h
         subst h
         dsimp only
         first
           | exact Or.inl rfl
           | (refine Or.inr ⟨hcache _ ?_, ?_⟩
              · assumption
              · omega)
           | (refine Or.inr ⟨?_, le_max_right _ _⟩
              omega)
           | (refine Or.inr ⟨le_min ?_ hminmax,
               le_trans (min_le_right _ _) (le_max_left _ _)⟩
              omega)
           | (refine Or.inr ⟨(nightly_plan_amps_bounds c A soc limit_soc _ ?_).1,
               le_trans (nightly_plan_amps_bounds c A soc limit_soc _ ?_).2
                 (le_max_right _ _)⟩
              · omega
              · omega))

/-- C3 witness: the theorem applied at the counterexample input (all three
hypotheses hold there), instantiated at the concrete result; the returned
32 A satisfies the amended bound max(max_amps, floor(budget/step)) =
max(16, 32). -/
theorem c3_amps_bounds_witness :
    cfgT.min_amps ≤ cfgT.max_amps ∧
    (0 : ℚ) < cfgT.phases * cfgT.volts * cfgT.charge_efficiency_factor ∧
    ((32 : ℤ) = 0 ∨ (cfgT.min_amps ≤ 32 ∧
      (32 : ℤ) ≤ max cfgT.max_amps
        (Int.floor ((7360 : ℚ) /
          (cfgT.phases * cfgT.volts * cfgT.charge_efficiency_factor))))) :=
  ⟨by norm_num [cfgT], by norm_num [cfgT],
   c3_amps_bounds cfgT ChargingPlan.Nightly 7360 (some 50) 80 21590 1000
     NightlyChargingState.reset (by norm_num [cfgT]) (by norm_num [cfgT])
     (fun a ha => absurd ha (by simp [NightlyChargingState.reset]))
     ⟨32, NightlyChargingState.reset, some ChargingPlan.MaxSpeed⟩
     (by norm_num [calculate_charging_amps, get_nightly_time, cfgT])⟩

/-- Evaluation of a Nightly call that takes the recalculation path of
charger.py lines 353-370: night, enough remaining time, all power guards
passing, and a cache that is empty or stale; the call returns the clamped
recalculated amps and caches them with the current timestamp. -/
theorem calc_nightly_recompute (c : Config) (B s L : ℚ) (t : ℤ) (now : ℚ)
    (st : NightlyChargingState) (rem : ℤ)
    (hsL : s < L)
    (hB : ¬ B < c.min_power * c.charge_efficiency_factor)
    (hA : ¬ Int.floor (B / (c.phases * c.volts * c.charge_efficiency_factor)) < c.min_amps)
    (hn : get_nightly_time c t = Except.ok (true, rem))
    (hr : ¬ (rem : ℚ) < 6/5 * c.poll_interval)
    (hst : st.cached_amps = none ∨
      st.should_recalculate c.nightly_recalc_interval now = true) :
    calculate_charging_amps c ChargingPlan.Nightly B (some s) L t now st =
      Except.ok ⟨nightly_plan_amps c
          (Int.floor (B / (c.phases * c.volts * c.charge_efficiency_factor))) s L rem,
        ⟨now, some (nightly_plan_amps c
          (Int.floor (B / (c.phases * c.volts * c.charge_efficiency_factor))) s L rem)⟩,
        none⟩ := by
  have hsL2 : ¬ s ≥ L := not_le.mpr hsL
  rcases hst with hst | hst
  · simp [calculate_charging_amps, hn, if_neg hsL2, if_neg hB, if_neg hA, if_neg hr,
      hst, NightlyChargingState.update]
  · rcases hc : st.cached_amps with _ | a
    · simp [calculate_charging_amps, hn, if_neg hsL2, if_neg hB, if_neg hA, if_neg hr,
        hc, NightlyChargingState.update]
    · simp [calculate_charging_amps, hn, if_neg hsL2, if_neg hB, if_neg hA, if_neg hr,
        hc, hst, NightlyChargingState.update]

/-- Evaluation of a Nightly call that takes the cached path of charger.py
lines 343-351: a fresh cache whose value does not exceed the current
budget-derived max_amps is returned unchanged and the state is not
touched. -/
theorem calc_nightly_cached (c : Config) (B s L : ℚ) (t : ℤ) (now tc : ℚ) (a : ℤ)
    (rem : ℤ)
    (hsL : s < L)
    (hB : ¬ B < c.min_power * c.charge_efficiency_factor)
    (hA : ¬ Int.floor (B / (c.phases * c.volts * c.charge_efficiency_factor)) < c.min_amps)
    (hn : get_nightly_time c t = Except.ok (true, rem))
    (hr : ¬ (rem : ℚ) < 6/5 * c.poll_interval)
    (hfresh : ¬ now - tc > c.nightly_recalc_interval)
    (hle : ¬ a > Int.floor (B / (c.phases * c.volts * c.charge_efficiency_factor))) :
    calculate_charging_amps c ChargingPlan.Nightly B (some s) L t now ⟨tc, some a⟩ =
      Except.ok ⟨a, ⟨tc, some a⟩, none⟩ := by
  have hsL2 : ¬ s ≥ L := not_le.mpr hsL
  simp [calculate_charging_amps, hn, if_neg hsL2, if_neg hB, if_neg hA, if_neg hr,
    NightlyChargingState.should_recalculate, hfresh, if_neg hle]

/-- C7: for the Nightly plan during the night window with remaining time at
least 1.2 × poll_interval at each call and all power guards passing, a
first call against an empty-or-stale cache recalculates and caches; a
second call within nightly_recalc_interval of the first (unchanged budget,
SOC and limit) returns the identical cached amps and leaves the state
unchanged; a call after nightly_recalc_interval has elapsed recalculates
from the then-remaining night time and re-caches, so its value can differ. -/
theorem c7_nightly_cache_discipline (c : Config) (B s L : ℚ) (t1 t2 t3 : ℤ)
    (now1 now2 now3 : ℚ) (st0 : NightlyChargingState) (rem1 rem2 rem3 : ℤ)
    (hsL : s < L)
    (hB : ¬ B < c.min_power * c.charge_efficiency_factor)
    (hA : ¬ Int.floor (B / (c.phases * c.volts * c.charge_efficiency_factor)) < c.min_amps)
    (hn1 : get_nightly_time c t1 = Except.ok (true, rem1))
    (hn2 : get_nightly_time c t2 = Except.ok (true, rem2))
    (hn3 : get_nightly_time c t3 = Except.ok (true, rem3))
    (hr1 : ¬ (rem1 : ℚ) < 6/5 * c.poll_interval)
    (hr2 : ¬ (rem2 : ℚ) < 6/5 * c.poll_interval)
    (hr3 : ¬ (rem3 : ℚ) < 6/5 * c.poll_interval)
    (hst0 : st0.cached_amps = none ∨
      st0.should_recalculate c.nightly_recalc_interval now1 = true) :
    calculate_charging_amps c ChargingPlan.Nightly B (some s) L t1 now1 st0 =
      Except.ok ⟨nightly_plan_amps c
          (Int.floor (B / (c.phases * c.volts * c.charge_efficiency_factor))) s L rem1,
        ⟨now1, some (nightly_plan_amps c
          (Int.floor (B / (c.phases * c.volts * c.charge_efficiency_factor))) s L rem1)⟩,
        none⟩ ∧
    (now2 - now1 ≤ c.nightly_recalc_interval →
      calculate_charging_amps c ChargingPlan.Nightly B (some s) L t2 now2
        ⟨now1, some (nightly_plan_amps c
          (Int.floor (B / (c.phases * c.volts * c.charge_efficiency_factor))) s L rem1)⟩ =
        Except.ok ⟨nightly_plan_amps c
            (Int.floor (B / (c.phases * c.volts * c.charge_efficiency_factor))) s L rem1,
          ⟨now1, some (nightly_plan_amps c
            (Int.floor (B / (c.phases * c.volts * c.charge_efficiency_factor))) s L rem1)⟩,
          none⟩) ∧
    (now3 - now1 > c.nightly_recalc_interval →
      calculate_charging_amps c ChargingPlan.Nightly B (some s) L t3 now3
        ⟨now1, some (nightly_plan_amps c
          (Int.floor (B / (c.phases * c.volts * c.charge_efficiency_factor))) s L rem1)⟩ =
        Except.ok ⟨nightly_plan_amps c
            (Int.floor (B / (c.phases * c.volts * c.charge_efficiency_factor))) s L rem3,
          ⟨now3, some (nightly_plan_amps c
            (Int.floor (B / (c.phases * c.volts * c.charge_efficiency_factor))) s L rem3)⟩,
          none⟩) := by
  have hAmin : c.min_amps ≤
      Int.floor (B / (c.phases * c.volts * c.charge_efficiency_factor)) := not_lt.mp hA
  refine ⟨calc_nightly_recompute c B s L t1 now1 st0 rem1 hsL hB hA hn1 hr1 hst0, ?_, ?_⟩
  · intro hwithin
    exact calc_nightly_cached c B s L t2 now2 now1 _ rem2 hsL hB hA hn2 hr2
      (not_lt.mpr hwithin)
      (not_lt.mpr (nightly_plan_amps_bounds c _ s L rem1 hAmin).2)
  · intro hafter
    refine calc_nightly_recompute c B s L t3 now3 _ rem3 hsL hB hA hn3 hr3 (Or.inr ?_)
    simp only [NightlyChargingState.should_recalculate, decide_eq_true_eq]
    exact hafter

/-- C7 witness: with cfgT, budget 3680 W (16 A), SOC 50 %, limit 80 %, a
first call at 23:00 recalculates 10 A and caches it; a second call 30 s
later (within the 300 s recalc interval) returns the identical cached
10 A; a third call after the interval elapsed recalculates from the
shorter remaining night (22000 s) and returns the different value 11 A. -/
theorem c7_nightly_cache_discipline_witness :
    nightly_plan_amps cfgT (Int.floor ((3680 : ℚ) /
        (cfgT.phases * cfgT.volts * cfgT.charge_efficiency_factor))) 50 80 25200 = 10 ∧
    nightly_plan_amps cfgT (Int.floor ((3680 : ℚ) /
        (cfgT.phases * cfgT.volts * cfgT.charge_efficiency_factor))) 50 80 22000 = 11 ∧
    calculate_charging_amps cfgT ChargingPlan.Nightly 3680 (some 50) 80 82830 1030
        ⟨1000, some (nightly_plan_amps cfgT (Int.floor ((3680 : ℚ) /
          (cfgT.phases * cfgT.volts * cfgT.charge_efficiency_factor))) 50 80 25200)⟩ =
      Except.ok ⟨nightly_plan_amps cfgT (Int.floor ((3680 : ℚ) /
          (cfgT.phases * cfgT.volts * cfgT.charge_efficiency_factor))) 50 80 25200,
        ⟨1000, some (nightly_plan_amps cfgT (Int.floor ((3680 : ℚ) /
          (cfgT.phases * cfgT.volts * cfgT.charge_efficiency_factor))) 50 80 25200)⟩,
        none⟩ ∧
    calculate_charging_amps cfgT ChargingPlan.Nightly 3680 (some 50) 80 86000 2000
        ⟨1000, some (nightly_plan_amps cfgT (Int.floor ((3680 : ℚ) /
          (cfgT.phases * cfgT.volts * cfgT.charge_efficiency_factor))) 50 80 25200)⟩ =
      Except.ok ⟨nightly_plan_amps cfgT (Int.floor ((3680 : ℚ) /
          (cfgT.phases * cfgT.volts * cfgT.charge_efficiency_factor))) 50 80 22000,
        ⟨2000, some (nightly_plan_amps cfgT (Int.floor ((3680 : ℚ) /
          (cfgT.phases * cfgT.volts * cfgT.charge_efficiency_factor))) 50 80 22000)⟩,
        none⟩ := by
  have hfloor : Int.floor ((3680 : ℚ) /
      (cfgT.phases * cfgT.volts * cfgT.charge_efficiency_factor)) = 16 := by
    norm_num [cfgT]
  have hreq1 : nightly_required_amps cfgT 50 80 25200 = 1500/161 := by
    norm_num [nightly_required_amps, cfgT]
  have hreq3 : nightly_required_amps cfgT 50 80 22000 = 2700/253 := by
    norm_num [nightly_required_amps, cfgT]
  have hceil1 : Int.ceil ((1500 : ℚ)/161) = 10 := by
    rw [Int.ceil_eq_iff]
    norm_num
  have hceil3 : Int.ceil ((2700 : ℚ)/253) = 11 := by
    rw [Int.ceil_eq_iff]
    norm_num
  have h10 : nightly_plan_amps cfgT (Int.floor ((3680 : ℚ) /
      (cfgT.phases * cfgT.volts * cfgT.charge_efficiency_factor))) 50 80 25200 = 10 := by
    rw [hfloor]
    simp only [nightly_plan_amps, hreq1, hceil1]
    norm_num [cfgT]
  have h11 : nightly_plan_amps cfgT (Int.floor ((3680 : ℚ) /
      (cfgT.phases * cfgT.volts * cfgT.charge_efficiency_factor))) 50 80 22000 = 11 := by
    rw [hfloor]
    simp only [nightly_plan_amps, hreq3, hceil3]
    norm_num [cfgT]
  have hc := c7_nightly_cache_discipline cfgT 3680 50 80 82800 82830 86000 1000 1030 2000
    NightlyChargingState.reset 25200 25170 22000
    (by norm_num) (by norm_num [cfgT]) (by norm_num [cfgT])
    (by decide) (by decide) (by decide)
    (by norm_num [cfgT]) (by norm_num [cfgT]) (by norm_num [cfgT])
    (Or.inl rfl)
  exact ⟨h10, h11, hc.2.1 (by norm_num [cfgT]), hc.2.2 (by norm_num [cfgT])⟩

/-- Evaluation of a call of calculate_charging_amps that stops in one of
the initial guards (charger.py lines 299-319): the result is 0 amps and
the nightly state is left untouched, for every plan. -/
theorem calc_guard_fail (c : Config) (plan : ChargingPlan) (B : ℚ)
    (soc : Option ℚ) (L : ℚ) (t : ℤ) (now : ℚ) (st : NightlyChargingState)
    (h : ∀ s : ℚ, soc = some s →
      s ≥ L ∨ B < c.min_power * c.charge_efficiency_factor ∨
      Int.floor (B / (c.phases * c.volts * c.charge_efficiency_factor)) < c.min_amps) :
    calculate_charging_amps c plan B soc L t now st = Except.ok ⟨0, st, none⟩ := by
  rcases soc with _ | s
  · simp [calculate_charging_amps]
  · have h3 := h s rfl
    by_cases h1 : s ≥ L
    · simp [calculate_charging_amps, if_pos h1]
    · by_cases h2 : B < c.min_power * c.charge_efficiency_factor
      · simp [calculate_charging_amps, if_neg h1, if_pos h2]
      · have h4 : Int.floor (B / (c.phases * c.volts * c.charge_efficiency_factor)) <
            c.min_amps := by
          rcases h3 with h3 | h3 | h3
          · exact absurd h3 h1
          · exact absurd h3 h2
          · exact h3
        simp [calculate_charging_amps, if_neg h1, if_neg h2, if_pos h4]

/-- Evaluation of a call of calculate_charging_amps for one of the five
plans that never resolve to Nightly, with all initial guards passing: the
result is min(floor(budget/step), max_amps) and the nightly state is reset
(charger.py lines 372-377). -/
theorem calc_non_nightly (c : Config) (plan : ChargingPlan) (B s L : ℚ) (t : ℤ)
    (now : ℚ) (st : NightlyChargingState)
    (hplan : plan = ChargingPlan.Manual ∨ plan = ChargingPlan.SolarOnly ∨
      plan = ChargingPlan.MinPlusSolar ∨ plan = ChargingPlan.MinBatteryLoad ∨
      plan = ChargingPlan.MaxSpeed)
    (hsL : s < L)
    (hB : ¬ B < c.min_power * c.charge_efficiency_factor)
    (hA : ¬ Int.floor (B / (c.phases * c.volts * c.charge_efficiency_factor)) < c.min_amps) :
    calculate_charging_amps c plan B (some s) L t now st =
      Except.ok ⟨min (Int.floor (B / (c.phases * c.volts * c.charge_efficiency_factor)))
        c.max_amps, NightlyChargingState.reset, none⟩ := by
  have hsL2 : ¬ s ≥ L := not_le.mpr hsL
  rcases hplan with rfl | rfl | rfl | rfl | rfl <;>
    simp [calculate_charging_amps, if_neg hsL2, if_neg hB, if_neg hA]

/-- Evaluation of a SolarPlusNightly call outside the night window with all
initial guards passing: the plan resolves to SolarOnly, so the call takes
the non-Nightly path and resets the nightly state. -/
theorem calc_spn_day (c : Config) (B s L : ℚ) (t : ℤ) (now : ℚ)
    (st : NightlyChargingState) (rem : ℤ)
    (hsL : s < L)
    (hB : ¬ B < c.min_power * c.charge_efficiency_factor)
    (hA : ¬ Int.floor (B / (c.phases * c.volts * c.charge_efficiency_factor)) < c.min_amps)
    (hgn : get_nightly_time c t = Except.ok (false, rem)) :
    calculate_charging_amps c ChargingPlan.SolarPlusNightly B (some s) L t now st =
      Except.ok ⟨min (Int.floor (B / (c.phases * c.volts * c.charge_efficiency_factor)))
        c.max_amps, NightlyChargingState.reset, none⟩ := by
  have hsL2 : ¬ s ≥ L := not_le.mpr hsL
  simp [calculate_charging_amps, hgn, if_neg hsL2, if_neg hB, if_neg hA]

/-- Negation of the initial-guard conjunction, in the form calc_guard_fail
consumes. -/
theorem guards_of_not_pass (c : Config) (B : ℚ) (soc : Option ℚ) (L : ℚ)
    (hg : ¬ ∃ s : ℚ, soc = some s ∧ s < L ∧
      ¬ B < c.min_power * c.charge_efficiency_factor ∧
      ¬ Int.floor (B / (c.phases * c.volts * c.charge_efficiency_factor)) < c.min_amps) :
    ∀ s : ℚ, soc = some s →
      s ≥ L ∨ B < c.min_power * c.charge_efficiency_factor ∨
      Int.floor (B / (c.phases * c.volts * c.charge_efficiency_factor)) < c.min_amps := by
  intro s hs
  by_contra hcon
  push_neg at hcon
  exact hg ⟨s, hs, hcon.1, not_lt.mpr hcon.2.1, not_lt.mpr hcon.2.2⟩

/-- State outcome of one call for a plan that never resolves to Nightly:
the nightly state is either untouched (a guard fired) or reset. -/
theorem step_non_nightly_state (c : Config) (plan : ChargingPlan) (B : ℚ)
    (soc : Option ℚ) (L : ℚ) (t : ℤ) (now : ℚ) (st : NightlyChargingState)
    (r : CalcResult)
    (hplan : plan = ChargingPlan.Manual ∨ plan = ChargingPlan.SolarOnly ∨
      plan = ChargingPlan.MinPlusSolar ∨ plan = ChargingPlan.MinBatteryLoad ∨
      plan = ChargingPlan.MaxSpeed)
    (h : calculate_charging_amps c plan B soc L t now st = Except.ok r) :
    r.state = st ∨ r.state = NightlyChargingState.reset := by
  by_cases hg : ∃ s : ℚ, soc = some s ∧ s < L ∧
      ¬ B < c.min_power * c.charge_efficiency_factor ∧
      ¬ Int.floor (B / (c.phases * c.volts * c.charge_efficiency_factor)) < c.min_amps
  · rcases hg with ⟨s, rfl, hsL, hB, hA⟩
    rw [calc_non_nightly c plan B s L t now st hplan hsL hB hA] at h
    simp only [Except.ok.injEq] at h
    subst h
    exact Or.inr rfl
  · rw [calc_guard_fail c plan B soc L t now st (guards_of_not_pass c B soc L hg)] at h
    simp only [Except.ok.injEq] at h
    subst h
    exact Or.inl rfl

/-- State outcome of a SolarPlusNightly call outside the night window: the
nightly state is either untouched or reset. -/
theorem step_spn_day_state (c : Config) (B : ℚ) (soc : Option ℚ) (L : ℚ) (t : ℤ)
    (now : ℚ) (st : NightlyChargingState) (r : CalcResult) (rem : ℤ)
    (hgn : get_nightly_time c t = Except.ok (false, rem))
    (h : calculate_charging_amps c ChargingPlan.SolarPlusNightly B soc L t now st =
      Except.ok r) :
    r.state = st ∨ r.state = NightlyChargingState.reset := by
  by_cases hg : ∃ s : ℚ, soc = some s ∧ s < L ∧
      ¬ B < c.min_power * c.charge_efficiency_factor ∧
      ¬ Int.floor (B / (c.phases * c.volts * c.charge_efficiency_factor)) < c.min_amps
  · rcases hg with ⟨s, rfl, hsL, hB, hA⟩
    rw [calc_spn_day c B s L t now st rem hsL hB hA hgn] at h
    simp only [Except.ok.injEq] at h
    subst h
    exact Or.inr rfl
  · rw [calc_guard_fail c ChargingPlan.SolarPlusNightly B soc L t now st
      (guards_of_not_pass c B soc L hg)] at h
    simp only [Except.ok.injEq] at h
    subst h
    exact Or.inl rfl

/-- When the last plan of the iteration list always resets the nightly
state, the whole per-plan loop ends with the reset state. -/
theorem per_plan_go_reset_last (c : Config) (inp : CycleInputs) (pl : ChargingPlan)
    (hlast : ∀ st : NightlyChargingState, ∃ r : CalcResult,
      plan_step c inp pl st = Except.ok r ∧ r.state = NightlyChargingState.reset) :
    ∀ (l : List ChargingPlan) (st : NightlyChargingState)
      (acc : List (ChargingPlan × ℤ)) (effs : List ChargingPlan)
      (out : List (ChargingPlan × ℤ) × NightlyChargingState × List ChargingPlan),
      per_plan_go c inp (l ++ [pl]) st acc effs = Except.ok out →
      out.2.1 = NightlyChargingState.reset := by
  intro l
  induction l with
  | nil =>
    intro st acc effs out h
    rcases hlast st with ⟨r, hr, hrs⟩
    simp only [List.nil_append, per_plan_go, hr, Except.ok.injEq] at h
    subst h
    exact hrs
  | cons p l ih =>
    intro st acc effs out h
    rcases hps : plan_step c inp p st with e | r
    · simp only [List.cons_append, per_plan_go, hps] at h
      exact Except.noConfusion h
    · simp only [List.cons_append, per_plan_go, hps] at h
      exact ih r.state _ _ out h

/-- When every plan of the iteration list either leaves the nightly state
untouched or resets it, the loop's final state is the initial state or the
reset state. -/
theorem per_plan_go_state_cases (c : Config) (inp : CycleInputs) :
    ∀ l : List ChargingPlan,
      (∀ p ∈ l, ∀ (st : NightlyChargingState) (r : CalcResult),
        plan_step c inp p st = Except.ok r →
        r.state = st ∨ r.state = NightlyChargingState.reset) →
      ∀ (st : NightlyChargingState) (acc : List (ChargingPlan × ℤ))
        (effs : List ChargingPlan)
        (out : List (ChargingPlan × ℤ) × NightlyChargingState × List ChargingPlan),
        per_plan_go c inp l st acc effs = Except.ok out →
        out.2.1 = st ∨ out.2.1 = NightlyChargingState.reset := by
  intro l
  induction l with
  | nil =>
    intro _ st acc effs out h
    simp only [per_plan_go, Except.ok.injEq] at h
    subst h
    exact Or.inl rfl
  | cons p l ih =>
    intro hall st acc effs out h
    rcases hps : plan_step c inp p st with e | r
    · simp only [per_plan_go, hps] at h
      exact Except.noConfusion h
    · simp only [per_plan_go, hps] at h
      have h1 := hall p (List.mem_cons_self p l) st r hps
      have h2 := ih (fun q hq => hall q (List.mem_cons_of_mem p hq)) r.state _ _ out h
      rcases h2 with h2 | h2
      · rcases h1 with h1 | h1
        · exact Or.inl (h2.trans h1)
        · exact Or.inr (h2.trans h1)
      · exact Or.inr h2

set_option maxHeartbeats 1000000 in
/-- Concrete evaluation of one whole per-plan loop with cfgT and inpT
(05:59:50, 10 s of night left): every non-Nightly plan yields the clamped
16 A and resets the state, while the Nightly and SolarPlusNightly
evaluations both take the MaxSpeed escalation, return the unclamped 54 A
and each request a set_charging_plan(MaxSpeed) write - although the loop
does not depend on which plan is currently active. -/
theorem per_plan_loop_concrete_eval :
    per_plan_loop cfgT inpT NightlyChargingState.reset =
      Except.ok ([(ChargingPlan.Manual, 16), (ChargingPlan.SolarOnly, 16),
        (ChargingPlan.MinPlusSolar, 16), (ChargingPlan.Nightly, 54),
        (ChargingPlan.SolarPlusNightly, 54), (ChargingPlan.MinBatteryLoad, 16),
        (ChargingPlan.MaxSpeed, 16)],
        NightlyChargingState.reset,
        [ChargingPlan.MaxSpeed, ChargingPlan.MaxSpeed]) := by
  have hcs : inpT.car_soc = some (50 : ℚ) := rfl
  have hcl : inpT.charging_limit = (80 : ℚ) := rfl
  have htd : inpT.time_of_day = (21590 : ℤ) := rfl
  have hnw : inpT.now = (5000 : ℚ) := rfl
  have hiv : inpT.inverter_soc = (50 : ℚ) := rfl
  have hpv : inpT.pv_power = (8000 : ℚ) := rfl
  have htl : inpT.total_load = (500 : ℚ) := rfl
  have hbl : inpT.battery_load = (100 : ℚ) := rfl
  have hfs : BatteryLoadStrategy.from_soc 50 cfgT = BatteryLoadStrategy.PeakShaving := by
    norm_num [BatteryLoadStrategy.from_soc, cfgT]
  have hp5 : BatteryLoadStrategy.PeakShaving.max_charing_power_with_grid cfgT = 5000 := rfl
  have hp2 : BatteryLoadStrategy.PeakShavingMininal.max_charing_power_with_grid cfgT =
      2000 := rfl
  have hbF : cycle_budget cfgT inpT ChargingPowerSource.Full = 12500 := by
    simp only [cycle_budget, hiv, hpv, htl, hbl, hfs,
      ChargingPowerSource.get_max_power, hp5, hp2]
    norm_num [cfgT, max_def]
  have hbS : cycle_budget cfgT inpT ChargingPowerSource.SolarOnly = 7500 := by
    simp only [cycle_budget, hiv, hpv, htl, hbl, hfs,
      ChargingPowerSource.get_max_power, hp5, hp2]
    norm_num [cfgT, max_def]
  have hbM : cycle_budget cfgT inpT ChargingPowerSource.MinPlusSolar = 7500 := by
    simp only [cycle_budget, hiv, hpv, htl, hbl, hfs,
      ChargingPowerSource.get_max_power, hp5, hp2]
    norm_num [cfgT, max_def]
  have hbB : cycle_budget cfgT inpT ChargingPowerSource.MinBatteryLoad = 9400 := by
    simp only [cycle_budget, hiv, hpv, htl, hbl, hfs,
      ChargingPowerSource.get_max_power, eq_self_iff_true, if_true, hp5, hp2]
    norm_num [cfgT, max_def]
  have hgn : get_nightly_time cfgT 21590 = Except.ok (true, 10) := by decide
  have hs1 : plan_step cfgT inpT ChargingPlan.Manual NightlyChargingState.reset =
      Except.ok ⟨16, NightlyChargingState.reset, none⟩ := by
    simp only [plan_step, ChargingPlan.get_power_source, hbF, hcs, hcl, htd, hnw]
    rw [calc_non_nightly cfgT ChargingPlan.Manual 12500 50 80 21590 5000
      NightlyChargingState.reset (Or.inl rfl) (by norm_num) (by norm_num [cfgT])
      (by norm_num [cfgT])]
    norm_num [cfgT, min_def]
  have hs2 : plan_step cfgT inpT ChargingPlan.SolarOnly NightlyChargingState.reset =
      Except.ok ⟨16, NightlyChargingState.reset, none⟩ := by
    simp only [plan_step, ChargingPlan.get_power_source, hbS, hcs, hcl, htd, hnw]
    rw [calc_non_nightly cfgT ChargingPlan.SolarOnly 7500 50 80 21590 5000
      NightlyChargingState.reset (Or.inr (Or.inl rfl)) (by norm_num) (by norm_num [cfgT])
      (by norm_num [cfgT])]
    norm_num [cfgT, min_def]
  have hs3 : plan_step cfgT inpT ChargingPlan.MinPlusSolar NightlyChargingState.reset =
      Except.ok ⟨16, NightlyChargingState.reset, none⟩ := by
    simp only [plan_step, ChargingPlan.get_power_source, hbM, hcs, hcl, htd, hnw]
    rw [calc_non_nightly cfgT ChargingPlan.MinPlusSolar 7500 50 80 21590 5000
      NightlyChargingState.reset (Or.inr (Or.inr (Or.inl rfl))) (by norm_num)
      (by norm_num [cfgT]) (by norm_num [cfgT])]
    norm_num [cfgT, min_def]
  have hs4 : plan_step cfgT inpT ChargingPlan.Nightly NightlyChargingState.reset =
      Except.ok ⟨54, NightlyChargingState.reset, some ChargingPlan.MaxSpeed⟩ := by
    simp only [plan_step, ChargingPlan.get_power_source, hbF, hcs, hcl, htd, hnw]
    norm_num [calculate_charging_amps, get_nightly_time, cfgT]
  have hs5 : plan_step cfgT inpT ChargingPlan.SolarPlusNightly NightlyChargingState.reset =
      Except.ok ⟨54, NightlyChargingState.reset, some ChargingPlan.MaxSpeed⟩ := by
    simp only [plan_step, ChargingPlan.get_power_source, htd, hgn, hcs, hcl, hnw]
    simp only [Prod.fst, if_true]
    simp [hbF]
    norm_num [calculate_charging_amps, get_nightly_time, cfgT]
  have hs6 : plan_step cfgT inpT ChargingPlan.MinBatteryLoad NightlyChargingState.reset =
      Except.ok ⟨16, NightlyChargingState.reset, none⟩ := by
    simp only [plan_step, ChargingPlan.get_power_source, hbB, hcs, hcl, htd, hnw]
    rw [calc_non_nightly cfgT ChargingPlan.MinBatteryLoad 9400 50 80 21590 5000
      NightlyChargingState.reset (Or.inr (Or.inr (Or.inr (Or.inl rfl)))) (by norm_num)
      (by norm_num [cfgT]) (by norm_num [cfgT])]
    norm_num [cfgT, min_def]
  have hs7 : plan_step cfgT inpT ChargingPlan.MaxSpeed NightlyChargingState.reset =
      Except.ok ⟨16, NightlyChargingState.reset, none⟩ := by
    simp only [plan_step, ChargingPlan.get_power_source, hbF, hcs, hcl, htd, hnw]
    rw [calc_non_nightly cfgT ChargingPlan.MaxSpeed 12500 50 80 21590 5000
      NightlyChargingState.reset (Or.inr (Or.inr (Or.inr (Or.inr rfl)))) (by norm_num)
      (by norm_num [cfgT]) (by norm_num [cfgT])]
    norm_num [cfgT, min_def]
  simp only [per_plan_loop, plan_list, per_plan_go, hs1, hs2, hs3, hs4, hs5, hs6, hs7,
    List.reverse_cons, List.reverse_nil, List.nil_append, List.cons_append]

/-- C10 (amended): the per-plan observability loop runs
calculate_charging_amps for every plan, in enum order, against the single
shared nightly state; an invocation for a plan that never resolves to
Nightly and passes the initial guards resets that state (but an invocation
stopped by an early guard leaves it untouched); the state after the whole
loop is always either the reset state or exactly the state the cycle
started with, so a nightly cache written during a cycle never survives to
the next cycle; and the loop's Nightly evaluation can itself request the
MaxSpeed plan switch (twice, together with SolarPlusNightly) regardless of
which plan is currently active. -/
theorem c10_per_plan_loop_frame :
    (∀ (c : Config) (plan : ChargingPlan) (B s L : ℚ) (t : ℤ) (now : ℚ)
       (st : NightlyChargingState),
       (plan = ChargingPlan.Manual ∨ plan = ChargingPlan.SolarOnly ∨
        plan = ChargingPlan.MinPlusSolar ∨ plan = ChargingPlan.MinBatteryLoad ∨
        plan = ChargingPlan.MaxSpeed) →
       s < L →
       ¬ B < c.min_power * c.charge_efficiency_factor →
       ¬ Int.floor (B / (c.phases * c.volts * c.charge_efficiency_factor)) < c.min_amps →
       calculate_charging_amps c plan B (some s) L t now st =
         Except.ok ⟨min (Int.floor (B / (c.phases * c.volts * c.charge_efficiency_factor)))
           c.max_amps, NightlyChargingState.reset, none⟩) ∧
    (∀ (c : Config) (inp : CycleInputs) (st0 : NightlyChargingState)
       (out : List (ChargingPlan × ℤ) × NightlyChargingState × List ChargingPlan),
       per_plan_loop c inp st0 = Except.ok out →
       out.2.1 = NightlyChargingState.reset ∨ out.2.1 = st0) ∧
    per_plan_loop cfgT inpT NightlyChargingState.reset =
      Except.ok ([(ChargingPlan.Manual, 16), (ChargingPlan.SolarOnly, 16),
        (ChargingPlan.MinPlusSolar, 16), (ChargingPlan.Nightly, 54),
        (ChargingPlan.SolarPlusNightly, 54), (ChargingPlan.MinBatteryLoad, 16),
        (ChargingPlan.MaxSpeed, 16)],
        NightlyChargingState.reset,
        [ChargingPlan.MaxSpeed, ChargingPlan.MaxSpeed]) := by
  refine ⟨fun c plan B s L t now st hplan hsL hB hA =>
    calc_non_nightly c plan B s L t now st hplan hsL hB hA, ?_,
    per_plan_loop_concrete_eval⟩
  intro c inp st0 out h
  by_cases hP : ∃ s : ℚ, inp.car_soc = some s ∧ s < inp.charging_limit ∧
      ¬ cycle_budget c inp ChargingPowerSource.Full <
        c.min_power * c.charge_efficiency_factor ∧
      ¬ Int.floor (cycle_budget c inp ChargingPowerSource.Full /
        (c.phases * c.volts * c.charge_efficiency_factor)) < c.min_amps
  · left
    rcases hP with ⟨s, hsoc, hsL, hB, hA⟩
    refine per_plan_go_reset_last c inp ChargingPlan.MaxSpeed ?_
      [ChargingPlan.Manual, ChargingPlan.SolarOnly, ChargingPlan.MinPlusSolar,
       ChargingPlan.Nightly, ChargingPlan.SolarPlusNightly, ChargingPlan.MinBatteryLoad]
      st0 [] [] out ?_
    · intro st
      refine ⟨⟨min (Int.floor (cycle_budget c inp ChargingPowerSource.Full /
          (c.phases * c.volts * c.charge_efficiency_factor))) c.max_amps,
          NightlyChargingState.reset, none⟩, ?_, rfl⟩
      simp only [plan_step, ChargingPlan.get_power_source]
      rw [hsoc]
      exact calc_non_nightly c ChargingPlan.MaxSpeed _ s _ _ _ _
        (Or.inr (Or.inr (Or.inr (Or.inr rfl)))) hsL hB hA
    · exact h
  · have hguards := guards_of_not_pass c (cycle_budget c inp ChargingPowerSource.Full)
      inp.car_soc inp.charging_limit hP
    have hcases := per_plan_go_state_cases c inp plan_list ?_ st0 [] [] out h
    · rcases hcases with h2 | h2
      · exact Or.inr h2
      · exact Or.inl h2
    · intro p hp st2 r2 hpr
      have hp2 : p = ChargingPlan.Manual ∨ p = ChargingPlan.SolarOnly ∨
          p = ChargingPlan.MinPlusSolar ∨ p = ChargingPlan.Nightly ∨
          p = ChargingPlan.SolarPlusNightly ∨ p = ChargingPlan.MinBatteryLoad ∨
          p = ChargingPlan.MaxSpeed := by
        simpa [plan_list] using hp
      rcases hp2 with rfl | rfl | rfl | rfl | rfl | rfl | rfl
      · simp only [plan_step, ChargingPlan.get_power_source] at hpr
        exact step_non_nightly_state c _ _ _ _ _ _ _ _ (Or.inl rfl) hpr
      · simp only [plan_step, ChargingPlan.get_power_source] at hpr
        exact step_non_nightly_state c _ _ _ _ _ _ _ _ (Or.inr (Or.inl rfl)) hpr
      · simp only [plan_step, ChargingPlan.get_power_source] at hpr
        exact step_non_nightly_state c _ _ _ _ _ _ _ _ (Or.inr (Or.inr (Or.inl rfl))) hpr
      · simp only [plan_step, ChargingPlan.get_power_source] at hpr
        rw [calc_guard_fail c ChargingPlan.Nightly _ inp.car_soc _ _ _ _ hguards] at hpr
        simp only [Except.ok.injEq] at hpr
        subst hpr
        exact Or.inl rfl
      · simp only [plan_step, ChargingPlan.get_power_source] at hpr
        rcases hgn : get_nightly_time c inp.time_of_day with e | p2
        · rw [hgn] at hpr
          exact Except.noConfusion hpr
        · rcases p2 with ⟨b, rem⟩
          rw [hgn] at hpr
          cases b
          · simp only [Bool.false_eq_true, if_neg] at hpr
            exact step_spn_day_state c _ _ _ _ _ _ _ rem hgn (by simpa using hpr)
          · simp only [if_pos] at hpr
            rw [calc_guard_fail c ChargingPlan.SolarPlusNightly _ inp.car_soc _ _ _ _
              hguards] at hpr
            simp only [Except.ok.injEq] at hpr
            subst hpr
            exact Or.inl rfl
      · simp only [plan_step, ChargingPlan.get_power_source] at hpr
        exact step_non_nightly_state c _ _ _ _ _ _ _ _
          (Or.inr (Or.inr (Or.inr (Or.inl rfl)))) hpr
      · simp only [plan_step, ChargingPlan.get_power_source] at hpr
        exact step_non_nightly_state c _ _ _ _ _ _ _ _
          (Or.inr (Or.inr (Or.inr (Or.inr rfl)))) hpr

/-- C10 counterexample: an invocation for the non-Nightly plan Manual that
stops in the insufficient-power guard (budget 0 W) returns with the shared
nightly state untouched, so not every non-Nightly invocation resets it. -/
theorem c10_per_plan_loop_frame_cex :
    calculate_charging_amps cfgT ChargingPlan.Manual 0 (some 50) 80 43200 100
      ⟨5, some 10⟩ = Except.ok ⟨0, ⟨5, some 10⟩, none⟩ ∧
    (⟨5, some 10⟩ : NightlyChargingState) ≠ NightlyChargingState.reset := by
  constructor
  · norm_num [calculate_charging_amps, cfgT]
  · simp [NightlyChargingState.reset]

/-- C10 witness: part one of the theorem applied to the Manual plan with a
12500 W budget and a populated cache state (the call resets the cache and
returns min(54, 16) = 16 A), and part two applied to the concrete cycle of
per_plan_loop_concrete_eval, whose final state is the reset state. -/
theorem c10_per_plan_loop_frame_witness :
    calculate_charging_amps cfgT ChargingPlan.Manual 12500 (some 50) 80 21590 5000
      ⟨3, some 7⟩ =
      Except.ok ⟨min (Int.floor ((12500 : ℚ) /
        (cfgT.phases * cfgT.volts * cfgT.charge_efficiency_factor))) cfgT.max_amps,
        NightlyChargingState.reset, none⟩ ∧
    (([(ChargingPlan.Manual, (16 : ℤ)), (ChargingPlan.SolarOnly, 16),
        (ChargingPlan.MinPlusSolar, 16), (ChargingPlan.Nightly, 54),
        (ChargingPlan.SolarPlusNightly, 54), (ChargingPlan.MinBatteryLoad, 16),
        (ChargingPlan.MaxSpeed, 16)],
        NightlyChargingState.reset,
        [ChargingPlan.MaxSpeed, ChargingPlan.MaxSpeed]).2.1 =
        NightlyChargingState.reset ∨
      ([(ChargingPlan.Manual, (16 : ℤ)), (ChargingPlan.SolarOnly, 16),
        (ChargingPlan.MinPlusSolar, 16), (ChargingPlan.Nightly, 54),
        (ChargingPlan.SolarPlusNightly, 54), (ChargingPlan.MinBatteryLoad, 16),
        (ChargingPlan.MaxSpeed, 16)],
        NightlyChargingState.reset,
        [ChargingPlan.MaxSpeed, ChargingPlan.MaxSpeed]).2.1 =
        NightlyChargingState.reset) :=
  ⟨c10_per_plan_loop_frame.1 cfgT ChargingPlan.Manual 12500 50 80 21590 5000
    ⟨3, some 7⟩ (Or.inl rfl) (by norm_num) (by norm_num [cfgT]) (by norm_num [cfgT]),
   c10_per_plan_loop_frame.2.1 cfgT inpT NightlyChargingState.reset _
     per_plan_loop_concrete_eval⟩
